import Mathlib

/-!
Verification of the empathic-credit-system event pipeline.

Shallow embedding of the repository's Python services into Lean 4:
numeric values are rationals, SQL timestamps are integers, table state is
passed explicitly, and each worker's message handler is a pure function
from (state, message, environment outcomes) to (state, broker action).
Logging is outside the model. The file has two parts: the definitions
translated from the source, then the theorems about them.
-/

namespace ECS

/-! ## Emotion aggregation worker
Embeds `services/emotion-processing-worker`: `models/models.py`,
`database/database.py` (`update_emotional_summary`) and
`processing/processing.py` (`process_message`). -/

/-- Emotional metrics carried by an emotion event (`EmotionMetrics`). -/
structure EmotionMetrics where
  positivity : ℚ
  intensity : ℚ
  stress_level : ℚ
deriving DecidableEq

/-- Payload of an emotion event (`EmotionEventPayload`). -/
structure EmotionEventPayload where
  type : String
  metrics : EmotionMetrics
deriving DecidableEq

/-- A complete emotion event for a user (`EmotionEvent`). -/
structure EmotionEvent where
  user_id : String
  timestamp : String
  emotion_event : EmotionEventPayload
  trace_id : Option String
deriving DecidableEq

/-- Characters of a string before the first letter T, if any. -/
def charsBeforeT : List Char → List Char
  | [] => []
  | c :: cs => if c = 'T' then [] else c :: charsBeforeT cs

/-- The calendar-date key extracted from the event timestamp, as the worker
computes it: `event.timestamp.split("T")[0]`, i.e. everything before the
first T separator. -/
def summaryDate (ts : String) : String :=
  String.mk (charsBeforeT ts.data)

/-- One row of the `emotional_events_summary` table. -/
structure SummaryRow where
  avg_positivity_score : ℚ
  avg_intensity_score : ℚ
  avg_stress_level : ℚ
  event_count : ℕ
deriving DecidableEq

/-- The `emotional_events_summary` table, keyed by (user_id, summary_date)
per its unique constraint. -/
abbrev SummaryTable := String × String → Option SummaryRow

/-- The `ON CONFLICT ... DO UPDATE` arm of the upsert in
`update_emotional_summary`: each average is recomputed as
`(old_avg * old_count + new_value) / (old_count + 1)` and the count is
incremented. -/
def mergeSummary (old : SummaryRow) (m : EmotionMetrics) : SummaryRow :=
  { avg_positivity_score :=
      (old.avg_positivity_score * old.event_count + m.positivity) / (old.event_count + 1)
    avg_intensity_score :=
      (old.avg_intensity_score * old.event_count + m.intensity) / (old.event_count + 1)
    avg_stress_level :=
      (old.avg_stress_level * old.event_count + m.stress_level) / (old.event_count + 1)
    event_count := old.event_count + 1 }

/-- The `INSERT ... VALUES ($1,$2,$3,$4,$5,1,NOW())` arm: the three averages
are seeded with the event's metrics and `event_count = 1`. -/
def seedSummary (m : EmotionMetrics) : SummaryRow :=
  { avg_positivity_score := m.positivity
    avg_intensity_score := m.intensity
    avg_stress_level := m.stress_level
    event_count := 1 }

/-- `update_emotional_summary`: the single atomic upsert executed against the
store, keyed by (user_id, date part of the timestamp). -/
def update_emotional_summary (table : SummaryTable) (event : EmotionEvent) : SummaryTable :=
  let key : String × String := (event.user_id, summaryDate event.timestamp)
  let m := event.emotion_event.metrics
  fun k =>
    if k = key then
      match table key with
      | none => some (seedSummary m)
      | some old => some (mergeSummary old m)
    else table k

/-- N successive deliveries of the same emotion event to the worker
(the store serializes the upserts, so duplicates form a sequence). -/
def deliverEmotionN : ℕ → SummaryTable → EmotionEvent → SummaryTable
  | 0, t, _ => t
  | n + 1, t, e => update_emotional_summary (deliverEmotionN n t e) e

/-- The `event_count` currently stored for a key (0 when no row exists). -/
def storedCount (table : SummaryTable) (k : String × String) : ℕ :=
  (table k).elim 0 SummaryRow.event_count

/-- A row holding the event's metrics as averages, with count `n`. -/
def constantRow (m : EmotionMetrics) (n : ℕ) : SummaryRow :=
  ⟨m.positivity, m.intensity, m.stress_level, n⟩

/-- A fixed emotion event used to witness the aggregation theorem. -/
def emotionEventW : EmotionEvent :=
  { user_id := "u1"
    timestamp := "2025-01-02T03:04:05"
    emotion_event := { type := "SENTIMENT_ANALYSIS"
                       metrics := { positivity := 4/5, intensity := 9/10, stress_level := 1/5 } }
    trace_id := none }

/-! ## Consumer message handling
A delivered broker message either decodes and validates to a typed event or
is malformed (JSON decode failure or schema violation); the handler resolves
every message to an explicit broker action. -/

/-- The broker action a worker takes for one message: acknowledge, or
negatively acknowledge with a redelivery delay. -/
inductive WorkerAction
  | ack
  | nak (delay : ℕ)
deriving DecidableEq

/-- A delivered payload: either a validated event or a payload that fails
JSON decoding or schema validation. -/
inductive MsgPayload (α : Type)
  | valid (a : α)
  | malformed

/-- `process_message` of the emotion worker: malformed payloads are caught by
the `(json.JSONDecodeError, ValidationError)` handler and acknowledged;
valid events are upserted (store failure leads to `nak(delay=10)`). -/
def process_message_emotion (table : SummaryTable) (msg : MsgPayload EmotionEvent)
    (dbOk : Bool) : SummaryTable × WorkerAction :=
  match msg with
  | .malformed => (table, .ack)
  | .valid e => if dbOk then (update_emotional_summary table e, .ack) else (table, .nak 10)

/-! ## Transaction worker
Embeds `services/transaction-processing-worker`. -/

/-- A transaction event from the bus (`TransactionEvent`). -/
structure TransactionEvent where
  user_id : String
  amount : ℚ
deriving DecidableEq

/-- One immutable row of the `transactions` table. -/
structure TransactionRecord where
  user_id : String
  amount : ℚ
  created_at : ℤ
deriving DecidableEq

/-- `insert_transaction`: appends an immutable ledger row with `NOW()`. -/
def insert_transaction (txs : List TransactionRecord) (now : ℤ) (tr : TransactionEvent) :
    List TransactionRecord :=
  txs ++ [⟨tr.user_id, tr.amount, now⟩]

/-- `process_message` of the transaction worker: malformed payloads are
acknowledged and dropped; valid events are inserted (store failure leads to
`nak(delay=10)`). -/
def process_message_tx (txs : List TransactionRecord) (now : ℤ)
    (msg : MsgPayload TransactionEvent) (dbOk : Bool) :
    List TransactionRecord × WorkerAction :=
  match msg with
  | .malformed => (txs, .ack)
  | .valid tr => if dbOk then (insert_transaction txs now tr, .ack) else (txs, .nak 10)

/-! ## Credit offers and the acceptance worker
Embeds the `credit_limits` table, `activate_credit_offer` and
`process_message` of `services/credit-application-worker`. Offer ids are the
128-bit integer values of the UUIDs. -/

/-- The `status` column of `credit_limits`. -/
inductive OfferStatus
  | offered
  | active
  | expired
deriving DecidableEq

/-- One row of the `credit_limits` table (keyed externally by the offer id). -/
structure OfferRow where
  user_id : String
  status : OfferStatus
  credit_limit : ℚ
  interest_rate : ℚ
  credit_type : String
  expires_at : ℤ
  activated_at : Option ℤ
  updated_at : Option ℤ
deriving DecidableEq

/-- The `credit_limits` table, keyed by the offer id. -/
abbrev OfferTable := ℕ → Option OfferRow

/-- `activate_credit_offer`: the conditional update
`UPDATE credit_limits SET status='active', activated_at=NOW(), updated_at=NOW()
WHERE id=$1 AND user_id=$2 AND status='offered'`; returns whether exactly one
row was affected (`UPDATE 1`). -/
def activate_credit_offer (table : OfferTable) (now : ℤ) (offer_id : ℕ)
    (user_id : String) : OfferTable × Bool :=
  match table offer_id with
  | some row =>
    if row.user_id = user_id ∧ row.status = OfferStatus.offered then
      (fun k =>
        if k = offer_id then
          some { row with status := OfferStatus.active
                          activated_at := some now
                          updated_at := some now }
        else table k,
       true)
    else (table, false)
  | none => (table, false)

/-- What one delivery to the acceptance worker produced: whether the
conditional update affected a row, the broker action taken, and whether the
activation notification was published. -/
structure StepOutcome where
  activated : Bool
  action : WorkerAction
  notified : Bool
deriving DecidableEq

/-- The body of the acceptance worker's `process_message` for a validated
event: run the conditional update; on one affected row publish the
notification (a publish failure raises into the generic handler, which
`nak(delay=10)`s — the committed update is not rolled back); on zero affected
rows skip the notification; then `ack`. -/
def process_acceptance (table : OfferTable) (now : ℤ) (offer_id : ℕ) (user_id : String)
    (publishOk : Bool) : OfferTable × StepOutcome :=
  let r := activate_credit_offer table now offer_id user_id
  if r.2 then
    if publishOk then (r.1, ⟨true, .ack, true⟩)
    else (r.1, ⟨true, .nak 10, false⟩)
  else (r.1, ⟨false, .ack, false⟩)

/-- A delivered acceptance message: a validated `CreditOfferAcceptedEvent`
or a payload failing JSON decoding or schema validation. -/
inductive AcceptMessage
  | valid (offer_id : ℕ) (user_id : String) (accepted_at : String)
  | malformed

/-- `process_message` of the acceptance worker: its single `except Exception`
handler `nak(delay=10)`s every failure, so a malformed payload is negatively
acknowledged (not dropped); a validated event runs the conditional update and
notification. -/
def process_message_accept (table : OfferTable) (now : ℤ) (msg : AcceptMessage)
    (publishOk : Bool) : OfferTable × StepOutcome :=
  match msg with
  | .malformed => (table, ⟨false, .nak 10, false⟩)
  | .valid oid uid _ => process_acceptance table now oid uid publishOk

/-- One delivery attempt: the wall-clock at processing time and whether the
notification publish would succeed. -/
structure Delivery where
  now : ℤ
  publishOk : Bool

/-- A sequence of deliveries of the same acceptance event (the store
serializes the conditional updates of concurrent replicas, so concurrent or
duplicate deliveries form a sequence). -/
def runAcceptDeliveries : OfferTable → ℕ → String → List Delivery →
    OfferTable × List StepOutcome
  | t, _, _, [] => (t, [])
  | t, oid, uid, d :: ds =>
    let r := process_acceptance t d.now oid uid d.publishOk
    let rest := runAcceptDeliveries r.1 oid uid ds
    (rest.1, r.2 :: rest.2)

/-! ## UUID parsing and the synchronous acceptance endpoint
Embeds `validate_offer_for_acceptance` and `accept_credit_offer` of
`services/user-and-credit-service` (`database/database.py`, `api/api.py`). -/

/-- Left brace character, written by code point to stay out of string
literals. -/
def braceL : Char := Char.ofNat 123

/-- Right brace character. -/
def braceR : Char := Char.ofNat 125

/-- Whether a character is one of the two brace characters stripped by
CPython's `uuid.UUID` via `hex.strip('{}')`. -/
def isBraceChar (c : Char) : Bool :=
  c = braceL || c = braceR

/-- Fuel-bounded removal of every occurrence of a nonempty pattern, as
`str.replace(pat, '')` does. The fuel is an upper bound on the scan length. -/
def removeAllAux (pat : List Char) : ℕ → List Char → List Char
  | _, [] => []
  | 0, l => l
  | fuel + 1, c :: cs =>
    if pat.isPrefixOf (c :: cs) ∧ pat ≠ [] then
      removeAllAux pat fuel ((c :: cs).drop pat.length)
    else c :: removeAllAux pat fuel cs

/-- `s.replace(pat, '')` for a nonempty pattern. -/
def removeAll (s pat : String) : String :=
  String.mk (removeAllAux pat.data s.data.length s.data)

/-- `s.strip('{}')`: strips leading and trailing brace characters. -/
def stripBraces (s : String) : String :=
  String.mk (((s.data.dropWhile isBraceChar).reverse.dropWhile isBraceChar).reverse)

/-- Whether `c` is a hexadecimal digit accepted by `int(s, 16)`. -/
def isHexDigit (c : Char) : Bool :=
  c.isDigit || ('a' ≤ c && c ≤ 'f') || ('A' ≤ c && c ≤ 'F')

/-- Numeric value of a hexadecimal digit. -/
def hexVal (c : Char) : ℕ :=
  if c.isDigit then c.toNat - 48
  else if 'a' ≤ c then c.toNat - 87
  else c.toNat - 55

/-- Parsing of an offer id string as CPython's `uuid.UUID(hex=s)` does:
remove `urn:` and `uuid:`, strip braces, remove dashes, then require exactly
32 characters forming a hexadecimal integer; `none` models the `ValueError`
raised otherwise. (The sign/whitespace/underscore forms `int(s, 16)` also
accepts are not modelled; the modelled strings are a subset of the accepted
ones and parse to the same value.) -/
def pythonUuidParse (s : String) : Option ℕ :=
  let t := removeAll (removeAll s "urn:") "uuid:"
  let t := stripBraces t
  let t := removeAll t "-"
  if t.data.length = 32 ∧ t.data.all isHexDigit then
    some (t.data.foldl (fun acc c => acc * 16 + hexVal c) 0)
  else none

/-- Result of `validate_offer_for_acceptance`: the unhandled `ValueError`
from `uuid.UUID(offer_id)` (raised before the query runs), a matching row,
or no matching row. -/
inductive ValidateOutcome
  | valueError
  | row (offer_id : ℕ) (r : OfferRow)
  | noRow
deriving DecidableEq

/-- `validate_offer_for_acceptance`: parses the offer id with `uuid.UUID`
(may raise), then runs
`SELECT ... WHERE id=$1 AND user_id=$2 AND status='offered' AND
expires_at > NOW()`. -/
def validate_offer_for_acceptance (table : OfferTable) (now : ℤ) (offer_id : String)
    (user_id : String) : ValidateOutcome :=
  match pythonUuidParse offer_id with
  | none => .valueError
  | some u =>
    match table u with
    | some r =>
      if r.user_id = user_id ∧ r.status = OfferStatus.offered ∧ now < r.expires_at then
        .row u r
      else .noRow
    | none => .noRow

/-- HTTP-level outcome of the synchronous accept endpoint. -/
inductive AcceptHttpResult
  | processing
  | notFound
  | internalError
deriving DecidableEq

/-- The `AcceptanceRequest` event published to `credit.offers.approved`. -/
structure AcceptanceEvent where
  offerId : ℕ
  userId : String
  acceptedAt : ℤ
deriving DecidableEq

/-- `accept_credit_offer` endpoint: validate the offer; a `ValueError` from
UUID parsing propagates unhandled (an internal server error, reached before
any query); no matching row yields 404 with no event; otherwise the
acceptance event is published and 202 processing is returned. -/
def accept_credit_offer (table : OfferTable) (now : ℤ) (offer_id : String)
    (user_id : String) : AcceptHttpResult × List AcceptanceEvent :=
  match validate_offer_for_acceptance table now offer_id user_id with
  | .valueError => (.internalError, [])
  | .noRow => (.notFound, [])
  | .row u _ => (.processing, [⟨u, user_id, now⟩])

/-- A credit offer row in `offered` state, used in concrete scenarios. -/
def offerRowW : OfferRow :=
  { user_id := "u1"
    status := .offered
    credit_limit := 5000
    interest_rate := 9
    credit_type := "SHORT_TERM_PERSONAL_LOAN"
    expires_at := 30
    activated_at := none
    updated_at := none }

/-- A `credit_limits` table holding `offerRowW` at offer id 7. -/
def offerTableW : OfferTable :=
  fun n => if n = 7 then some offerRowW else none

/-- `offerRowW` with an earlier expiry (already past at delivery time 10). -/
def expiredRowW : OfferRow :=
  { offerRowW with expires_at := 5 }

/-- A `credit_limits` table holding `expiredRowW` at offer id 7. -/
def expiredTableW : OfferTable :=
  fun n => if n = 7 then some expiredRowW else none

/-! ## Credit decision service
Embeds `services/user-and-credit-service`: `get_user_features` and
`save_credit_offer` (`database/database.py`), the circuit-broken scorer call
(`services/services.py`) and the `analyze_credit` endpoint (`api/api.py`).
Timestamps are integers counted in days, so `NOW() - INTERVAL '7 days'` is
`now - 7` and `timedelta(days=7)` is `+ 7`. -/

/-- The decision-input features assembled for the scorer. -/
structure FeatureVector where
  transaction_count_30d : ℕ
  avg_transaction_value_30d : ℚ
  avg_positivity_7d : ℚ
  stress_events_30d : ℕ
deriving DecidableEq

/-- One row of `emotional_events_summary` as read by the feature query
(dates as integers for the interval comparison). -/
structure SummaryDbRow where
  user_id : String
  summary_date : ℤ
  avg_positivity_score : ℚ
  event_count : ℕ
deriving DecidableEq

/-- The relational store as read by `get_user_features`. -/
structure Store where
  summaries : List SummaryDbRow
  transactions : List TransactionRecord

/-- `get_user_features`: the emotional query averages
`avg_positivity_score` and sums `event_count` over the rows of the last
7 days; the transactional query counts rows and averages `amount` over the
last 30 days; `AVG`/`SUM` of no rows is NULL (`none`). The assembled vector
defaults positivity to 0.5 and the others to 0 when NULL. -/
def get_user_features (st : Store) (now : ℤ) (user_id : String) : FeatureVector :=
  let srows := st.summaries.filter fun r =>
    decide (r.user_id = user_id ∧ now - 7 ≤ r.summary_date)
  let avg_positivity : Option ℚ :=
    if srows.length = 0 then none
    else some ((srows.map SummaryDbRow.avg_positivity_score).sum / srows.length)
  let stress_events : Option ℕ :=
    if srows.length = 0 then none else some (srows.map SummaryDbRow.event_count).sum
  let trows := st.transactions.filter fun r =>
    decide (r.user_id = user_id ∧ now - 30 ≤ r.created_at)
  let avg_tx_value : Option ℚ :=
    if trows.length = 0 then none
    else some ((trows.map TransactionRecord.amount).sum / trows.length)
  { transaction_count_30d := trows.length
    avg_transaction_value_30d := avg_tx_value.getD 0
    avg_positivity_7d := avg_positivity.getD (1/2)
    stress_events_30d := stress_events.getD 0 }

/-- The 30-day transaction count as the spec words it. -/
def specTxCount30d (st : Store) (now : ℤ) (uid : String) : ℕ :=
  st.transactions.countP fun r => decide (r.user_id = uid ∧ now - 30 ≤ r.created_at)

/-- The 30-day average transaction value as the spec words it, with the
documented default 0 when no rows exist. -/
def specAvgTxValue30d (st : Store) (now : ℤ) (uid : String) : ℚ :=
  match st.transactions.filter fun r => decide (r.user_id = uid ∧ now - 30 ≤ r.created_at) with
  | [] => 0
  | l => (l.map TransactionRecord.amount).sum / l.length

/-- The 7-day average positivity as the spec words it, with the documented
default 0.5 when no rows exist. -/
def specAvgPositivity7d (st : Store) (now : ℤ) (uid : String) : ℚ :=
  match st.summaries.filter fun r => decide (r.user_id = uid ∧ now - 7 ≤ r.summary_date) with
  | [] => 1/2
  | l => (l.map SummaryDbRow.avg_positivity_score).sum / l.length

/-- The summary event-count total over the last 7 days — what the code
actually stores under the key `stress_events_30d`. -/
def summaryEventSum7d (st : Store) (now : ℤ) (uid : String) : ℕ :=
  ((st.summaries.filter fun r => decide (r.user_id = uid ∧ now - 7 ≤ r.summary_date)).map
      SummaryDbRow.event_count).sum

/-- The stress-event figure as the claim words it: a 30-day count computed
from the store — read charitably as the `event_count` total over the last
30 days, since the summary table records no separate stress-event count. -/
def claimedStressEvents30d (st : Store) (now : ℤ) (uid : String) : ℕ :=
  ((st.summaries.filter fun r => decide (r.user_id = uid ∧ now - 30 ≤ r.summary_date)).map
      SummaryDbRow.event_count).sum

/-- A store whose only summary row is dated 10 days in the past with 5
events, exercising the 7-day versus 30-day window difference. -/
def storeTenDaysW : Store :=
  { summaries := [⟨"u1", -10, 1, 5⟩]
    transactions := [] }

/-- An empty relational store. -/
def storeEmptyW : Store := ⟨[], []⟩

/-- The JSON body returned by the scorer service; `risk_score` is what
`ml_result.get("risk_score")` yields (`none` when the key is absent). -/
structure MlResult where
  risk_score : Option ℚ
deriving DecidableEq

/-- One cache read: a hit with a stored value, a miss, or a raised Redis
error. -/
inductive CacheRead (α : Type)
  | hit (a : α)
  | miss
  | err

/-- Outcomes of the Redis operations for the two keys used by one
`analyze_credit` request: `user_features:{user_id}` and
`ml_result:{user_id}`. -/
structure CacheEnv where
  featGet : CacheRead FeatureVector
  featSetOk : Bool
  mlGet : CacheRead MlResult
  mlSetOk : Bool

/-- Outcome of one scorer call through the circuit breaker: a response body,
an `httpx.RequestError`, or `CircuitBreakerError` raised while the breaker
is open. -/
inductive ScorerOutcome
  | respond (r : MlResult)
  | networkFailure
  | circuitOpen

/-- The HTTP error signals the analyze endpoint can raise. -/
inductive HttpError
  | overloaded503
  | unavailable503
  | internal500
  | invalidResponse500
deriving DecidableEq

/-- A credit offer as built and returned by `analyze_credit`. -/
structure CreditOffer where
  offer_id : ℕ
  user_id : String
  credit_limit : ℚ
  interest_rate : ℚ
  credit_type : String
  expires_at : ℤ
deriving DecidableEq

/-- A row as inserted into `credit_limits` by `save_credit_offer`, whose
`INSERT` hardcodes the status literal `'offered'`. -/
structure CreditLimitInsert where
  offer : CreditOffer
  status : OfferStatus
deriving DecidableEq

/-- `save_credit_offer`: appends the insert carrying status `'offered'`. -/
def save_credit_offer (rows : List CreditLimitInsert) (offer : CreditOffer) :
    List CreditLimitInsert :=
  rows ++ [⟨offer, OfferStatus.offered⟩]

/-- The response body of a completed analysis (`CreditAnalysisResponse`). -/
structure CreditAnalysisResponse where
  user_id : String
  approved : Bool
  ml_risk_score : ℚ
  offer : Option CreditOffer
  reason : Option String
deriving DecidableEq

/-- Result of one `analyze_credit` request: an HTTP error signal or a
response body. -/
inductive AnalyzeResult
  | httpError (e : HttpError)
  | success (r : CreditAnalysisResponse)
deriving DecidableEq

/-- Round-half-to-even to an integer, as Python's `round` does (over exact
rationals; binary floating-point artifacts are outside the model). -/
def roundHalfEven (q : ℚ) : ℤ :=
  if Int.fract q < 1/2 then ⌊q⌋
  else if 1/2 < Int.fract q then ⌊q⌋ + 1
  else if ⌊q⌋ % 2 = 0 then ⌊q⌋ else ⌊q⌋ + 1

/-- Python's `round(x, 2)`. -/
def pyRound2 (q : ℚ) : ℚ :=
  (roundHalfEven (q * 100) : ℚ) / 100

/-- The feature-assembly block of `analyze_credit`: try the cache; on a miss
read the store and repopulate with TTL 300s; on any Redis error (of the get
or of the repopulating setex) the `except` block falls back to a direct
store read. -/
def featureStep (cache : CacheEnv) (st : Store) (now : ℤ) (user_id : String) : FeatureVector :=
  match cache.featGet with
  | .hit fv => fv
  | .miss =>
    let fv := get_user_features st now user_id
    if cache.featSetOk then fv else get_user_features st now user_id
  | .err => get_user_features st now user_id

/-- The scoring block of `analyze_credit`: try the ML cache; on a hit use
the cached body; on a miss call the scorer through the circuit breaker and
cache the body. `CircuitBreakerError` maps to the 503 "overloaded" signal,
`httpx.RequestError` to the 503 "unavailable" signal, and any other
exception — including a Redis error on the `ml_result` key — is caught by
the generic handler as a 500. -/
def mlStep (cache : CacheEnv) (scorer : FeatureVector → ScorerOutcome)
    (fv : FeatureVector) : Except HttpError MlResult :=
  match cache.mlGet with
  | .hit r => .ok r
  | .err => .error HttpError.internal500
  | .miss =>
    match scorer fv with
    | .circuitOpen => .error HttpError.overloaded503
    | .networkFailure => .error HttpError.unavailable503
    | .respond r => if cache.mlSetOk then .ok r else .error HttpError.internal500

/-- The decision block of `analyze_credit` once a risk score is present:
deny above 0.6 with a reason; otherwise build the offer with the rounded
formulas and expiry 7 days out, persist it (the second component lists the
rows inserted into `credit_limits`) and return it. -/
def decisionStep (now : ℤ) (new_offer_id : ℕ) (user_id : String) (risk_score : ℚ) :
    AnalyzeResult × List CreditLimitInsert :=
  if 3/5 < risk_score then
    (.success ⟨user_id, false, risk_score, none, some "High risk score."⟩, [])
  else
    let offer : CreditOffer :=
      ⟨new_offer_id, user_id, pyRound2 (max 1000 ((1 - risk_score) * 10000)),
       pyRound2 (5 + risk_score * 15), "SHORT_TERM_PERSONAL_LOAN", now + 7⟩
    (.success ⟨user_id, true, risk_score, some offer, none⟩, save_credit_offer [] offer)

/-- `analyze_credit`: feature assembly, scoring, the validity check of the
returned score (`risk_score is None` gives a 500), then the decision. -/
def analyze_credit (cache : CacheEnv) (st : Store) (scorer : FeatureVector → ScorerOutcome)
    (now : ℤ) (new_offer_id : ℕ) (user_id : String) :
    AnalyzeResult × List CreditLimitInsert :=
  match mlStep cache scorer (featureStep cache st now user_id) with
  | .error e => (.httpError e, [])
  | .ok ml =>
    match ml.risk_score with
    | none => (.httpError HttpError.invalidResponse500, [])
    | some risk_score => decisionStep now new_offer_id user_id risk_score

/-- A cache whose every operation raises. -/
def cacheAllErrW : CacheEnv := ⟨.err, false, .err, false⟩

/-- A fully available but empty cache. -/
def cacheAllOkW : CacheEnv := ⟨.miss, true, .miss, true⟩

/-- A cache holding a scorer result with risk score 0.3 under the
`ml_result` key. -/
def cacheMlHitW : CacheEnv :=
  ⟨.miss, true, .hit ⟨some (3/10)⟩, true⟩

/-- A scorer that always answers with risk score 0. -/
def scorerZeroW : FeatureVector → ScorerOutcome :=
  fun _ => .respond ⟨some 0⟩

/-! ## Circuit breaker
The scorer call in `services/services.py` is wrapped by
`pybreaker.CircuitBreaker(fail_max=5, reset_timeout=30)`. -/

/-- Modelled from the spec: the state of the external pybreaker
`CircuitBreaker` guarding the scorer call — the library itself is not part
of the repository; only its configuration (`ml_service_breaker`) and the
exception mapping in `api.py` are. A breaker is closed with a
consecutive-failure counter, or open since a timestamp; the half-open probe
is the first call arriving after the cool-down. -/
inductive BreakerState
  | closed (fail_count : ℕ)
  | opened (opened_at : ℤ)
deriving DecidableEq

/-- Breaker configuration. -/
structure BreakerConfig where
  fail_max : ℕ
  reset_timeout : ℤ

/-- The configuration of `ml_service_breaker`:
`CircuitBreaker(fail_max=5, reset_timeout=30)`. -/
def ml_service_breaker : BreakerConfig := ⟨5, 30⟩

/-- Result of one guarded call: the network call was attempted (and
succeeded or failed), or the breaker raised `CircuitBreakerError` without
attempting it. -/
inductive GuardedCall
  | attemptedSuccess
  | attemptedFailure
  | fastFail
deriving DecidableEq

/-- Modelled from the spec: one call through the breaker at time `now`,
where `callSucceeds` tells whether the attempted network call would succeed.
Closed: attempt the call; a failure increments the counter and opens the
breaker when the threshold is reached; a success resets the counter. Open:
before the cool-down elapses fail fast without attempting; afterwards enter
half-open and attempt one probe — success closes the breaker, failure
re-opens it. -/
def breakerCall (cfg : BreakerConfig) (st : BreakerState) (now : ℤ) (callSucceeds : Bool) :
    GuardedCall × BreakerState :=
  match st with
  | .closed n =>
    if callSucceeds then (.attemptedSuccess, .closed 0)
    else if cfg.fail_max ≤ n + 1 then (.attemptedFailure, .opened now)
    else (.attemptedFailure, .closed (n + 1))
  | .opened t =>
    if now - t < cfg.reset_timeout then (.fastFail, .opened t)
    else if callSucceeds then (.attemptedSuccess, .closed 0)
    else (.attemptedFailure, .opened now)

/-- A run of consecutive failing calls at the given times. -/
def breakerFailures (cfg : BreakerConfig) : BreakerState → List ℤ → BreakerState
  | st, [] => st
  | st, t :: ts => breakerFailures cfg (breakerCall cfg st t false).2 ts

end ECS

namespace ECS

/-! ## Theorems -/

/-- The upsert at the event's own key: seeds a fresh row or merges into the
existing one. -/
lemma update_emotional_summary_apply (t : SummaryTable) (e : EmotionEvent) :
    update_emotional_summary t e (e.user_id, summaryDate e.timestamp)
      = some ((t (e.user_id, summaryDate e.timestamp)).elim
          (seedSummary e.emotion_event.metrics)
          (fun old => mergeSummary old e.emotion_event.metrics)) := by
  unfold update_emotional_summary
  simp only [if_pos rfl]
  cases t (e.user_id, summaryDate e.timestamp) <;> rfl

/-- Each delivery raises the stored count at the event's key by one. -/
lemma storedCount_update (t : SummaryTable) (e : EmotionEvent) :
    storedCount (update_emotional_summary t e) (e.user_id, summaryDate e.timestamp)
      = storedCount t (e.user_id, summaryDate e.timestamp) + 1 := by
  unfold storedCount
  rw [update_emotional_summary_apply]
  cases t (e.user_id, summaryDate e.timestamp) with
  | none => rfl
  | some old => rfl

/-- Merging one more copy of the same metrics into a row whose averages
already equal those metrics keeps the averages and increments the count. -/
lemma mergeSummary_constant (m : EmotionMetrics) (n : ℕ) :
    mergeSummary (constantRow m n) m = constantRow m (n + 1) := by
  have hne : ((n : ℚ) + 1) ≠ 0 := by positivity
  unfold mergeSummary constantRow
  simp only [SummaryRow.mk.injEq]
  refine ⟨?_, ?_, ?_, trivial⟩ <;>
    (field_simp; ring)

/-- After N identical deliveries into an absent row, the stored row holds the
event's metrics as averages and count N. -/
lemma deliverEmotionN_constant (table : SummaryTable) (e : EmotionEvent) (N : ℕ)
    (h0 : table (e.user_id, summaryDate e.timestamp) = none) (hN : 1 ≤ N) :
    deliverEmotionN N table e (e.user_id, summaryDate e.timestamp)
      = some (constantRow e.emotion_event.metrics N) := by
  induction N with
  | zero => omega
  | succ n ih =>
    rcases Nat.eq_zero_or_pos n with hn | hn
    · subst hn
      show update_emotional_summary table e _ = _
      rw [update_emotional_summary_apply, h0]
      rfl
    · show update_emotional_summary (deliverEmotionN n table e) e _ = _
      rw [update_emotional_summary_apply, ih hn]
      simp only [Option.elim_some, Option.some.injEq]
      exact mergeSummary_constant _ n

/-- C4: for every sequence of N deliveries of the same emotion event, the
(user, date) summary row's event_count grows by exactly N; each step merges
with the formula `(old_avg * old_count + new) / (old_count + 1)` or seeds the
row with the event's metrics and count 1; and from an empty row, N identical
deliveries leave the averages equal to the common value with count N. -/
theorem C4_duplicate_emotion_aggregation (table : SummaryTable) (e : EmotionEvent) (N : ℕ) :
    storedCount (deliverEmotionN N table e) (e.user_id, summaryDate e.timestamp)
      = storedCount table (e.user_id, summaryDate e.timestamp) + N ∧
    (∀ t : SummaryTable,
      update_emotional_summary t e (e.user_id, summaryDate e.timestamp)
        = some ((t (e.user_id, summaryDate e.timestamp)).elim
            (seedSummary e.emotion_event.metrics)
            (fun old => mergeSummary old e.emotion_event.metrics))) ∧
    (table (e.user_id, summaryDate e.timestamp) = none → 1 ≤ N →
      deliverEmotionN N table e (e.user_id, summaryDate e.timestamp)
        = some (constantRow e.emotion_event.metrics N)) := by
  refine ⟨?_, fun t => update_emotional_summary_apply t e, deliverEmotionN_constant table e N⟩
  induction N with
  | zero => rfl
  | succ n ih =>
    show storedCount (update_emotional_summary (deliverEmotionN n table e) e) _ = _
    rw [storedCount_update, ih]
    omega

/-- Witness for C4 at a concrete event, empty table and N = 3. -/
theorem C4_duplicate_emotion_aggregation_witness :
    deliverEmotionN 3 (fun _ => none) emotionEventW ("u1", "2025-01-02")
      = some ⟨4/5, 9/10, 1/5, 3⟩ := by
  have h := (C4_duplicate_emotion_aggregation (fun _ => none) emotionEventW 3).2.2 rfl
    (by norm_num)
  have hd : summaryDate emotionEventW.timestamp = "2025-01-02" := rfl
  rw [hd] at h
  exact h

/-- One-step unfolding of a delivery sequence. -/
lemma runAcceptDeliveries_cons (t : OfferTable) (oid : ℕ) (uid : String) (d : Delivery)
    (ds : List Delivery) :
    runAcceptDeliveries t oid uid (d :: ds)
      = ((runAcceptDeliveries (process_acceptance t d.now oid uid d.publishOk).1 oid uid ds).1,
         (process_acceptance t d.now oid uid d.publishOk).2 ::
           (runAcceptDeliveries (process_acceptance t d.now oid uid d.publishOk).1 oid uid ds).2) :=
  rfl

/-- The conditional update on a matching `offered` row: it affects exactly
one row, rewriting it to `active` with the activation timestamps. -/
lemma activate_credit_offer_offered (table : OfferTable) (now : ℤ) (oid : ℕ)
    (uid : String) (row : OfferRow) (h : table oid = some row)
    (hu : row.user_id = uid) (hs : row.status = OfferStatus.offered) :
    activate_credit_offer table now oid uid
      = (fun k =>
          if k = oid then
            some { row with status := OfferStatus.active
                            activated_at := some now
                            updated_at := some now }
          else table k,
         true) := by
  unfold activate_credit_offer
  rw [h]
  exact if_pos ⟨hu, hs⟩

/-- The conditional update when the stored row (if any) does not match the
user or is no longer `offered`: zero rows affected, table unchanged. -/
lemma activate_credit_offer_stuck (table : OfferTable) (now : ℤ) (oid : ℕ) (uid : String)
    (h : ∀ row, table oid = some row → ¬(row.user_id = uid ∧ row.status = OfferStatus.offered)) :
    activate_credit_offer table now oid uid = (table, false) := by
  unfold activate_credit_offer
  cases hr : table oid with
  | none => rfl
  | some row => exact if_neg (h row hr)

/-- On a matching `offered` row the worker activates the offer; it then acks
(publish succeeded) or naks with delay 10 (publish failed), the committed
update kept either way. -/
lemma process_acceptance_offered (table : OfferTable) (now : ℤ) (oid : ℕ) (uid : String)
    (pub : Bool) (row : OfferRow) (h : table oid = some row)
    (hu : row.user_id = uid) (hs : row.status = OfferStatus.offered) :
    process_acceptance table now oid uid pub
      = (fun k =>
          if k = oid then
            some { row with status := OfferStatus.active
                            activated_at := some now
                            updated_at := some now }
          else table k,
         if pub then ⟨true, WorkerAction.ack, true⟩ else ⟨true, WorkerAction.nak 10, false⟩) := by
  unfold process_acceptance
  rw [activate_credit_offer_offered table now oid uid row h hu hs]
  cases pub <;> rfl

/-- When the stored row (if any) does not match the user or is no longer
`offered`, the worker observes zero affected rows and acks without
publishing a notification. -/
lemma process_acceptance_stuck (table : OfferTable) (now : ℤ) (oid : ℕ) (uid : String)
    (pub : Bool)
    (h : ∀ row, table oid = some row → ¬(row.user_id = uid ∧ row.status = OfferStatus.offered)) :
    process_acceptance table now oid uid pub = (table, ⟨false, WorkerAction.ack, false⟩) := by
  unfold process_acceptance
  rw [activate_credit_offer_stuck table now oid uid h]
  rfl

/-- After the offer's row was rewritten to an `active` row, no later
conditional update can match it again. -/
lemma stuck_after_activation (table : OfferTable) (oid : ℕ) (uid : String) (rowA : OfferRow)
    (hA : rowA.status = OfferStatus.active) :
    ∀ r : OfferRow, (fun k => if k = oid then some rowA else table k) oid = some r →
      ¬(r.user_id = uid ∧ r.status = OfferStatus.offered) := by
  intro r hr hcon
  have h2 : (if oid = oid then some rowA else table oid) = some r := hr
  rw [if_pos rfl] at h2
  have h1 : rowA = r := Option.some.inj h2
  have hh : rowA.status = OfferStatus.offered := by rw [h1]; exact hcon.2
  rw [hA] at hh
  exact OfferStatus.noConfusion hh

/-- On a table where the offer cannot be activated, every delivery of the
sequence observes zero affected rows, acks, and leaves the table unchanged. -/
lemma runAcceptDeliveries_stuck (table : OfferTable) (oid : ℕ) (uid : String)
    (ds : List Delivery)
    (h : ∀ row, table oid = some row → ¬(row.user_id = uid ∧ row.status = OfferStatus.offered)) :
    runAcceptDeliveries table oid uid ds
      = (table, ds.map fun _ => ⟨false, WorkerAction.ack, false⟩) := by
  induction ds with
  | nil => rfl
  | cons d ds ih =>
    rw [runAcceptDeliveries_cons, process_acceptance_stuck table d.now oid uid d.publishOk h,
      ih]
    rfl

/-- The stuck outcomes contain no activation. -/
lemma countP_activated_stuckList (ds : List Delivery) :
    ((ds.map fun _ => (⟨false, WorkerAction.ack, false⟩ : StepOutcome)).countP
        (fun o => o.activated)) = 0 := by
  induction ds with
  | nil => rfl
  | cons d ds ih => simp [List.countP_cons, ih]

/-- C1: for every sequence of deliveries of acceptance events for the same
offer id starting from an `offered` row, the conditional update makes the
status become `active` exactly once; every other delivery observes zero
affected rows and is acknowledged without retry, and the offer ends
`active`. -/
theorem C1_acceptance_exactly_once (table : OfferTable) (oid : ℕ) (uid : String)
    (row : OfferRow) (ds : List Delivery) (h : table oid = some row)
    (hu : row.user_id = uid) (hs : row.status = OfferStatus.offered) (hne : ds ≠ []) :
    ((runAcceptDeliveries table oid uid ds).2.countP (fun o => o.activated)) = 1 ∧
    (∀ o ∈ (runAcceptDeliveries table oid uid ds).2,
        o.activated = false → o.action = WorkerAction.ack) ∧
    ∃ r, (runAcceptDeliveries table oid uid ds).1 oid = some r ∧
        r.status = OfferStatus.active := by
  cases ds with
  | nil => exact absurd rfl hne
  | cons d ds =>
    rw [runAcceptDeliveries_cons,
      process_acceptance_offered table d.now oid uid d.publishOk row h hu hs]
    dsimp only
    rw [runAcceptDeliveries_stuck _ oid uid ds
      (stuck_after_activation table oid uid _ rfl)]
    dsimp only
    refine ⟨?_, ?_, ?_⟩
    · rw [List.countP_cons, countP_activated_stuckList]
      cases d.publishOk <;> rfl
    · intro o ho hfalse
      rcases List.mem_cons.mp ho with rfl | hmem
      · cases hp : d.publishOk <;> rw [hp] at hfalse <;> simp at hfalse
      · rcases List.mem_map.mp hmem with ⟨x, -, rfl⟩
        rfl
    · exact ⟨_, if_pos rfl, rfl⟩

/-- Witness for C1: three deliveries of the acceptance event for offer 7
against a table holding that offer in `offered` state. -/
theorem C1_acceptance_exactly_once_witness :
    ((runAcceptDeliveries offerTableW 7 "u1" [⟨1, true⟩, ⟨2, true⟩, ⟨3, false⟩]).2.countP
        (fun o => o.activated)) = 1 ∧
    (∀ o ∈ (runAcceptDeliveries offerTableW 7 "u1" [⟨1, true⟩, ⟨2, true⟩, ⟨3, false⟩]).2,
        o.activated = false → o.action = WorkerAction.ack) ∧
    ∃ r, (runAcceptDeliveries offerTableW 7 "u1" [⟨1, true⟩, ⟨2, true⟩, ⟨3, false⟩]).1 7
        = some r ∧ r.status = OfferStatus.active :=
  C1_acceptance_exactly_once offerTableW 7 "u1" offerRowW _ rfl rfl rfl
    (List.cons_ne_nil _ _)

/-- C9 counterexample: offer 7 is `offered`; the first delivery activates it
but the notification publish fails, so the worker naks; on the redelivery the
conditional update finds zero affected rows and the worker acks — and no
delivery ever publishes the notification, refuting "the notification is
published again". -/
theorem C9_counterexample :
    ((runAcceptDeliveries offerTableW 7 "u1" [⟨1, false⟩, ⟨2, true⟩]).2
        = [⟨true, WorkerAction.nak 10, false⟩, ⟨false, WorkerAction.ack, false⟩]) ∧
    (∀ o ∈ (runAcceptDeliveries offerTableW 7 "u1" [⟨1, false⟩, ⟨2, true⟩]).2,
        o.notified = false) := by
  decide

/-- C9 amended: when the notification publish fails after the conditional
update succeeded, the message is negatively acknowledged (delay 10) with the
transition kept; the redelivery re-checks the transition, finds zero affected
rows without re-applying it (`activated_at` keeps the first timestamp), and
is acknowledged — but the notification is not published again. -/
theorem C9_nak_then_reconvergence (table : OfferTable) (oid : ℕ) (uid : String)
    (row : OfferRow) (t1 t2 : ℤ) (pub2 : Bool) (h : table oid = some row)
    (hu : row.user_id = uid) (hs : row.status = OfferStatus.offered) :
    (process_acceptance table t1 oid uid false).2 = ⟨true, WorkerAction.nak 10, false⟩ ∧
    (process_acceptance table t1 oid uid false).1 oid
      = some { row with status := OfferStatus.active
                        activated_at := some t1
                        updated_at := some t1 } ∧
    (process_acceptance (process_acceptance table t1 oid uid false).1 t2 oid uid pub2).2
      = ⟨false, WorkerAction.ack, false⟩ ∧
    (process_acceptance (process_acceptance table t1 oid uid false).1 t2 oid uid pub2).1 oid
      = some { row with status := OfferStatus.active
                        activated_at := some t1
                        updated_at := some t1 } := by
  rw [process_acceptance_offered table t1 oid uid false row h hu hs]
  dsimp only
  rw [process_acceptance_stuck _ t2 oid uid pub2
    (stuck_after_activation table oid uid _ rfl)]
  exact ⟨rfl, if_pos rfl, rfl, if_pos rfl⟩

/-- Witness for C9 at offer 7 of the concrete table. -/
theorem C9_nak_then_reconvergence_witness :
    (process_acceptance offerTableW 1 7 "u1" false).2
      = ⟨true, WorkerAction.nak 10, false⟩ ∧
    (process_acceptance offerTableW 1 7 "u1" false).1 7
      = some { offerRowW with status := OfferStatus.active
                              activated_at := some 1
                              updated_at := some 1 } ∧
    (process_acceptance (process_acceptance offerTableW 1 7 "u1" false).1 2 7 "u1" true).2
      = ⟨false, WorkerAction.ack, false⟩ ∧
    (process_acceptance (process_acceptance offerTableW 1 7 "u1" false).1 2 7 "u1" true).1 7
      = some { offerRowW with status := OfferStatus.active
                              activated_at := some 1
                              updated_at := some 1 } :=
  C9_nak_then_reconvergence offerTableW 7 "u1" offerRowW 1 2 true rfl rfl rfl

/-- C5 counterexample: a payload that fails JSON decoding or validation,
delivered to the offer-acceptance worker, is negatively acknowledged with
delay 10 (its generic exception handler), not acknowledged and dropped. -/
theorem C5_counterexample :
    process_message_accept (fun _ => none) 0 AcceptMessage.malformed true
      = (fun _ => none, ⟨false, WorkerAction.nak 10, false⟩) :=
  rfl

/-- C5 amended: the emotion and transaction workers acknowledge and drop
malformed payloads without retry, but the acceptance worker negatively
acknowledges them with delay 10 (retries them). -/
theorem C5_validation_handling (st : SummaryTable) (txs : List TransactionRecord)
    (tbl : OfferTable) (now : ℤ) (dbOk pub : Bool) :
    process_message_emotion st MsgPayload.malformed dbOk = (st, WorkerAction.ack) ∧
    process_message_tx txs now MsgPayload.malformed dbOk = (txs, WorkerAction.ack) ∧
    process_message_accept tbl now AcceptMessage.malformed pub
      = (tbl, ⟨false, WorkerAction.nak 10, false⟩) :=
  ⟨rfl, rfl, rfl⟩

/-- Behaviour of the validation query once the offer id string parses. -/
lemma validate_offer_parse_some (table : OfferTable) (now : ℤ) (s uid : String) (u : ℕ)
    (hparse : pythonUuidParse s = some u) :
    validate_offer_for_acceptance table now s uid
      = match table u with
        | some r =>
          if r.user_id = uid ∧ r.status = OfferStatus.offered ∧ now < r.expires_at then
            ValidateOutcome.row u r
          else ValidateOutcome.noRow
        | none => ValidateOutcome.noRow := by
  unfold validate_offer_for_acceptance
  rw [hparse]

/-- When no row matches the full condition the endpoint answers not-found and
publishes nothing. -/
lemma accept_no_match (table : OfferTable) (now : ℤ) (s uid : String) (u : ℕ)
    (hparse : pythonUuidParse s = some u)
    (hnomatch : ∀ r, table u = some r →
        ¬(r.user_id = uid ∧ r.status = OfferStatus.offered ∧ now < r.expires_at)) :
    accept_credit_offer table now s uid = (AcceptHttpResult.notFound, []) := by
  have hv : validate_offer_for_acceptance table now s uid = ValidateOutcome.noRow := by
    rw [validate_offer_parse_some table now s uid u hparse]
    cases hr : table u with
    | none => rfl
    | some r => exact if_neg (hnomatch r hr)
  unfold accept_credit_offer
  rw [hv]

/-- C10: a non-UUID offer_id string makes `validate_offer_for_acceptance`
raise ValueError before any query runs — for every table state the request
ends in an unhandled internal error, not not-found; and for every parseable
offer id with no matching (offer, user, offered, unexpired) row the endpoint
returns not-found and publishes no event. -/
theorem C10_accept_endpoint_uuid (table : OfferTable) (now : ℤ) (s uid : String) (u : ℕ)
    (hparse : pythonUuidParse s = some u)
    (hnomatch : ∀ r, table u = some r →
        ¬(r.user_id = uid ∧ r.status = OfferStatus.offered ∧ now < r.expires_at)) :
    (pythonUuidParse "not-a-uuid" = none ∧
      ∀ (t : OfferTable) (n : ℤ) (v : String),
        accept_credit_offer t n "not-a-uuid" v = (AcceptHttpResult.internalError, [])) ∧
    accept_credit_offer table now s uid = (AcceptHttpResult.notFound, []) := by
  exact ⟨⟨rfl, fun t n v => rfl⟩, accept_no_match table now s uid u hparse hnomatch⟩

/-- Witness for C10: the 32-zero hex string parses (to offer id 0) and the
empty table yields not-found with no published event; the literal
`"not-a-uuid"` fails parsing for any table. -/
theorem C10_accept_endpoint_uuid_witness :
    (pythonUuidParse "not-a-uuid" = none ∧
      ∀ (t : OfferTable) (n : ℤ) (v : String),
        accept_credit_offer t n "not-a-uuid" v = (AcceptHttpResult.internalError, [])) ∧
    accept_credit_offer (fun _ => none) 0 "00000000000000000000000000000000" "u1"
      = (AcceptHttpResult.notFound, []) :=
  C10_accept_endpoint_uuid (fun _ => none) 0 "00000000000000000000000000000000" "u1" 0
    (by decide) (fun r hr => Option.noConfusion hr)

/-- C3 counterexample: offer 7 has expires_at = 5. The acceptance request at
time 3 (pre-expiry) validates and publishes the acceptance event; the worker
delivery of that event at time 10 — when expires_at lies in the past — still
activates the offer, because the worker's conditional update checks only the
status, not expires_at. -/
theorem C3_counterexample :
    accept_credit_offer expiredTableW 3 "00000000000000000000000000000007" "u1"
      = (AcceptHttpResult.processing, [⟨7, "u1", 3⟩]) ∧
    expiredRowW.expires_at < 10 ∧
    (process_acceptance expiredTableW 10 7 "u1" true).2.activated = true ∧
    (process_acceptance expiredTableW 10 7 "u1" true).1 7
      = some { expiredRowW with status := OfferStatus.active
                                activated_at := some 10
                                updated_at := some 10 } := by
  decide

/-- C3 amended: an acceptance request made when expires_at has passed never
validates (not-found, no event published); but the worker's conditional
update does not check expires_at, so a delivery processed after expiry still
activates an offer whose row is still `offered`. -/
theorem C3_expiry_amended (table : OfferTable) (now : ℤ) (s uid : String) (u : ℕ)
    (wtable : OfferTable) (wnow : ℤ) (woid : ℕ) (wuid : String) (wrow : OfferRow) (pub : Bool)
    (hparse : pythonUuidParse s = some u)
    (hexpired : ∀ r, table u = some r → r.expires_at ≤ now)
    (hw : wtable woid = some wrow) (hwu : wrow.user_id = wuid)
    (hws : wrow.status = OfferStatus.offered) (hwexp : wrow.expires_at ≤ wnow) :
    accept_credit_offer table now s uid = (AcceptHttpResult.notFound, []) ∧
    (process_acceptance wtable wnow woid wuid pub).2.activated = true ∧
    (process_acceptance wtable wnow woid wuid pub).1 woid
      = some { wrow with status := OfferStatus.active
                         activated_at := some wnow
                         updated_at := some wnow } := by
  refine ⟨?_, ?_, ?_⟩
  · refine accept_no_match table now s uid u hparse ?_
    rintro r hr ⟨-, -, hlt⟩
    exact absurd hlt (not_lt.mpr (hexpired r hr))
  · rw [process_acceptance_offered wtable wnow woid wuid pub wrow hw hwu hws]
    cases pub <;> rfl
  · rw [process_acceptance_offered wtable wnow woid wuid pub wrow hw hwu hws]
    dsimp only
    exact if_pos rfl

/-- Witness for C3 at the concrete expired offer 7. -/
theorem C3_expiry_amended_witness :
    accept_credit_offer expiredTableW 10 "00000000000000000000000000000007" "u1"
      = (AcceptHttpResult.notFound, []) ∧
    (process_acceptance expiredTableW 10 7 "u1" true).2.activated = true ∧
    (process_acceptance expiredTableW 10 7 "u1" true).1 7
      = some { expiredRowW with status := OfferStatus.active
                                activated_at := some 10
                                updated_at := some 10 } :=
  C3_expiry_amended expiredTableW 10 "00000000000000000000000000000007" "u1" 7
    expiredTableW 10 7 "u1" expiredRowW true
    (by decide)
    (fun r hr => by
      have h1 : expiredRowW = r := Option.some.inj (show some expiredRowW = some r from hr)
      rw [← h1]
      decide)
    rfl rfl rfl (by decide)

/-- The NULL-handling of the 30-day transaction average: the code's
`float(... or 0.0)` agrees with the spec-worded default by case on the
filtered rows. -/
lemma avgOpt_spec (l : List TransactionRecord) :
    (if l.length = 0 then (none : Option ℚ)
     else some ((l.map TransactionRecord.amount).sum / l.length)).getD 0
      = match l with
        | [] => 0
        | l2 => (l2.map TransactionRecord.amount).sum / l2.length := by
  cases l <;> rfl

/-- The NULL-handling of the 7-day positivity average and its 0.5 default. -/
lemma posOpt_spec (l : List SummaryDbRow) :
    (if l.length = 0 then (none : Option ℚ)
     else some ((l.map SummaryDbRow.avg_positivity_score).sum / l.length)).getD (1/2)
      = match l with
        | [] => 1/2
        | l2 => (l2.map SummaryDbRow.avg_positivity_score).sum / l2.length := by
  cases l <;> rfl

/-- The NULL-handling of the summed event count and its 0 default. -/
lemma sumOpt_spec (l : List SummaryDbRow) :
    (if l.length = 0 then (none : Option ℕ)
     else some (l.map SummaryDbRow.event_count).sum).getD 0
      = (l.map SummaryDbRow.event_count).sum := by
  cases l <;> rfl

/-- C7 counterexample: a summary row dated 10 days ago with 5 events is
outside the 7-day window the code queries but inside the claimed 30-day
window, so the field stored as `stress_events_30d` is 0, not the 30-day
count 5. -/
theorem C7_counterexample :
    (get_user_features storeTenDaysW 0 "u1").stress_events_30d = 0 ∧
    claimedStressEvents30d storeTenDaysW 0 "u1" = 5 ∧
    (get_user_features storeTenDaysW 0 "u1").stress_events_30d
      ≠ claimedStressEvents30d storeTenDaysW 0 "u1" := by
  exact ⟨rfl, rfl, by decide⟩

/-- C7 amended: the feature vector contains the 30-day transaction count,
the 30-day average transaction value (default 0), and the 7-day average
positivity (default 0.5), but the field named `stress_events_30d` is the
7-day total of summary `event_count` (default 0), not a 30-day stress-event
count. -/
theorem C7_feature_vector (st : Store) (now : ℤ) (uid : String) :
    (get_user_features st now uid).transaction_count_30d = specTxCount30d st now uid ∧
    (get_user_features st now uid).avg_transaction_value_30d = specAvgTxValue30d st now uid ∧
    (get_user_features st now uid).avg_positivity_7d = specAvgPositivity7d st now uid ∧
    (get_user_features st now uid).stress_events_30d = summaryEventSum7d st now uid := by
  refine ⟨?_, ?_, ?_, ?_⟩
  · exact (List.countP_eq_length_filter _ _).symm
  · exact avgOpt_spec _
  · exact posOpt_spec _
  · exact sumOpt_spec _

/-- C2: whenever the scoring step of `analyze_credit` obtains a risk score
s, a score above 0.6 yields approved=false with a reason and no row
inserted into `credit_limits`; otherwise the call persists (with status
`offered`) and returns the offer with
credit_limit = round(max(1000, (1-s)*10000), 2),
interest_rate = round(5 + s*15, 2) and expiry 7 days from now. -/
theorem C2_decision (cache : CacheEnv) (st : Store) (scorer : FeatureVector → ScorerOutcome)
    (now : ℤ) (oid : ℕ) (uid : String) (s : ℚ)
    (hscore : mlStep cache scorer (featureStep cache st now uid)
        = Except.ok ⟨some s⟩) :
    (3/5 < s →
      analyze_credit cache st scorer now oid uid
        = (.success ⟨uid, false, s, none, some "High risk score."⟩, [])) ∧
    (s ≤ 3/5 →
      analyze_credit cache st scorer now oid uid
        = (.success ⟨uid, true, s,
             some ⟨oid, uid, pyRound2 (max 1000 ((1 - s) * 10000)),
                   pyRound2 (5 + s * 15), "SHORT_TERM_PERSONAL_LOAN", now + 7⟩, none⟩,
           [⟨⟨oid, uid, pyRound2 (max 1000 ((1 - s) * 10000)), pyRound2 (5 + s * 15),
              "SHORT_TERM_PERSONAL_LOAN", now + 7⟩, OfferStatus.offered⟩])) := by
  unfold analyze_credit
  rw [hscore]
  constructor
  · intro hgt
    show decisionStep now oid uid s = _
    unfold decisionStep
    rw [if_pos hgt]
  · intro hle
    show decisionStep now oid uid s = _
    unfold decisionStep
    rw [if_neg (not_lt.mpr hle)]
    rfl

/-- Witness for C2 at risk score 0.3 served from the ML cache: the spec
scenario credit_limit 7000.00 and interest_rate 9.50. -/
theorem C2_decision_witness :
    ((3:ℚ)/5 < 3/10 →
      analyze_credit cacheMlHitW storeEmptyW scorerZeroW 0 1 "u1"
        = (.success ⟨"u1", false, 3/10, none, some "High risk score."⟩, [])) ∧
    ((3:ℚ)/10 ≤ 3/5 →
      analyze_credit cacheMlHitW storeEmptyW scorerZeroW 0 1 "u1"
        = (.success ⟨"u1", true, 3/10,
             some ⟨1, "u1", pyRound2 (max 1000 ((1 - 3/10) * 10000)),
                   pyRound2 (5 + (3/10) * 15), "SHORT_TERM_PERSONAL_LOAN", 0 + 7⟩, none⟩,
           [⟨⟨1, "u1", pyRound2 (max 1000 ((1 - 3/10) * 10000)), pyRound2 (5 + (3/10) * 15),
              "SHORT_TERM_PERSONAL_LOAN", 0 + 7⟩, OfferStatus.offered⟩])) ∧
    pyRound2 (max 1000 ((1 - 3/10) * 10000)) = 7000 ∧
    pyRound2 (5 + (3/10) * 15) = 19/2 := by
  refine ⟨(C2_decision cacheMlHitW storeEmptyW scorerZeroW 0 1 "u1" (3/10) rfl).1,
          (C2_decision cacheMlHitW storeEmptyW scorerZeroW 0 1 "u1" (3/10) rfl).2, ?_, ?_⟩
  · have h1 : max (1000:ℚ) ((1 - 3/10) * 10000) = 7000 := by
      rw [max_eq_right] <;> norm_num
    rw [h1]
    simp only [pyRound2, roundHalfEven]
    norm_num [Int.fract]
  · have h2 : (5:ℚ) + (3/10) * 15 = 19/2 := by norm_num
    rw [h2]
    simp only [pyRound2, roundHalfEven]
    norm_num [Int.fract]

/-- C6 counterexample: with every cache operation failing, `analyze_credit`
returns the generic 500 error (the Redis failure on the `ml_result` key is
caught by the generic handler), while the same store and scorer with a
working cache produce a successful response — so the cache failure is
visible to the caller as an error status. -/
theorem C6_counterexample :
    analyze_credit cacheAllErrW storeEmptyW scorerZeroW 0 1 "u1"
      = (.httpError HttpError.internal500, []) ∧
    analyze_credit cacheAllOkW storeEmptyW scorerZeroW 0 1 "u1"
      = (.success ⟨"u1", true, 0,
           some ⟨1, "u1", pyRound2 (max 1000 ((1 - 0) * 10000)), pyRound2 (5 + 0 * 15),
                 "SHORT_TERM_PERSONAL_LOAN", 0 + 7⟩, none⟩,
         [⟨⟨1, "u1", pyRound2 (max 1000 ((1 - 0) * 10000)), pyRound2 (5 + 0 * 15),
            "SHORT_TERM_PERSONAL_LOAN", 0 + 7⟩, OfferStatus.offered⟩]) := by
  constructor
  · rfl
  · show decisionStep 0 1 "u1" 0 = _
    unfold decisionStep
    rw [if_neg (by norm_num : ¬(3:ℚ)/5 < 0)]
    rfl

/-- C6 amended: a failure of the feature-vector cache degrades to a direct
store read and is invisible (the whole call equals the cache-miss run), but
a Redis failure on the scorer-result key — on its get, or on its set after a
successful scorer call — is caught by the generic handler and surfaced to
the caller as a 500 error. -/
theorem C6_cache_degradation (st : Store) (scorer : FeatureVector → ScorerOutcome)
    (now : ℤ) (oid : ℕ) (uid : String) (b fb ms : Bool)
    (mg : CacheRead MlResult) (fg : CacheRead FeatureVector) (r : MlResult) :
    analyze_credit ⟨.err, b, mg, ms⟩ st scorer now oid uid
      = analyze_credit ⟨.miss, true, mg, ms⟩ st scorer now oid uid ∧
    analyze_credit ⟨fg, fb, .err, ms⟩ st scorer now oid uid
      = (.httpError HttpError.internal500, []) ∧
    analyze_credit ⟨fg, fb, .miss, false⟩ st (fun _ => .respond r) now oid uid
      = (.httpError HttpError.internal500, []) :=
  ⟨rfl, rfl, rfl⟩

/-- Equation of `breakerCall` in the closed state. -/
lemma breakerCall_closed (cfg : BreakerConfig) (n : ℕ) (now : ℤ) (ok : Bool) :
    breakerCall cfg (.closed n) now ok
      = if ok then (.attemptedSuccess, .closed 0)
        else if cfg.fail_max ≤ n + 1 then (.attemptedFailure, .opened now)
        else (.attemptedFailure, .closed (n + 1)) := rfl

/-- Equation of `breakerCall` in the open state. -/
lemma breakerCall_opened (cfg : BreakerConfig) (t now : ℤ) (ok : Bool) :
    breakerCall cfg (.opened t) now ok
      = if now - t < cfg.reset_timeout then (.fastFail, .opened t)
        else if ok then (.attemptedSuccess, .closed 0)
        else (.attemptedFailure, .opened now) := rfl

/-- C8: the scorer circuit breaker (fail_max 5, reset_timeout 30) opens on
the fifth consecutive failure and not earlier; closed-state calls always
attempt the network; while open and within the cool-down every call fails
fast without attempting; the first call after the cool-down is the single
half-open probe (attempted; on failure the breaker re-opens); and the open
breaker surfaces as the 503 "overloaded" signal, distinguishable from the
network-failure 503. -/
theorem C8_circuit_breaker (t1 t2 t3 t4 t5 : ℤ) (n : ℕ) (tOpen now tProbe : ℤ) (ok : Bool)
    (fg : CacheRead FeatureVector) (fb ms : Bool) (store : Store) (now2 : ℤ)
    (oid : ℕ) (uid : String)
    (hcool : now - tOpen < ml_service_breaker.reset_timeout)
    (hprobe : ml_service_breaker.reset_timeout ≤ tProbe - tOpen) :
    breakerFailures ml_service_breaker (.closed 0) [t1, t2, t3, t4, t5] = .opened t5 ∧
    breakerFailures ml_service_breaker (.closed 0) [t1, t2, t3, t4] = .closed 4 ∧
    (breakerCall ml_service_breaker (.closed n) now ok).1 ≠ GuardedCall.fastFail ∧
    breakerCall ml_service_breaker (.opened tOpen) now ok = (.fastFail, .opened tOpen) ∧
    (breakerCall ml_service_breaker (.opened tOpen) tProbe ok).1 ≠ GuardedCall.fastFail ∧
    breakerCall ml_service_breaker (.opened tOpen) tProbe false
      = (.attemptedFailure, .opened tProbe) ∧
    analyze_credit ⟨fg, fb, .miss, ms⟩ store (fun _ => .circuitOpen) now2 oid uid
      = (.httpError HttpError.overloaded503, []) ∧
    analyze_credit ⟨fg, fb, .miss, ms⟩ store (fun _ => .networkFailure) now2 oid uid
      = (.httpError HttpError.unavailable503, []) ∧
    HttpError.overloaded503 ≠ HttpError.unavailable503 := by
  refine ⟨rfl, rfl, ?_, ?_, ?_, ?_, rfl, rfl, by decide⟩
  · rw [breakerCall_closed]
    split
    · simp
    · split <;> simp
  · rw [breakerCall_opened, if_pos hcool]
  · rw [breakerCall_opened, if_neg (not_lt.mpr hprobe)]
    split <;> simp
  · rw [breakerCall_opened, if_neg (not_lt.mpr hprobe),
      if_neg Bool.false_ne_true]

/-- Witness for C8 at concrete times: the breaker opened at 100, a call at
110 fails fast, and the probe runs at 140. -/
theorem C8_circuit_breaker_witness :
    breakerFailures ml_service_breaker (.closed 0) [1, 2, 3, 4, 5] = .opened 5 ∧
    breakerFailures ml_service_breaker (.closed 0) [1, 2, 3, 4] = .closed 4 ∧
    (breakerCall ml_service_breaker (.closed 2) 110 true).1 ≠ GuardedCall.fastFail ∧
    breakerCall ml_service_breaker (.opened 100) 110 true = (.fastFail, .opened 100) ∧
    (breakerCall ml_service_breaker (.opened 100) 140 true).1 ≠ GuardedCall.fastFail ∧
    breakerCall ml_service_breaker (.opened 100) 140 false
      = (.attemptedFailure, .opened 140) ∧
    analyze_credit ⟨.miss, true, .miss, true⟩ storeEmptyW (fun _ => .circuitOpen) 0 1 "u1"
      = (.httpError HttpError.overloaded503, []) ∧
    analyze_credit ⟨.miss, true, .miss, true⟩ storeEmptyW (fun _ => .networkFailure) 0 1 "u1"
      = (.httpError HttpError.unavailable503, []) ∧
    HttpError.overloaded503 ≠ HttpError.unavailable503 :=
  C8_circuit_breaker 1 2 3 4 5 2 100 110 140 true CacheRead.miss true true
    storeEmptyW 0 1 "u1" (by decide) (by decide)

end ECS
